import Mathlib

/-!
Shallow embedding of `src/mood_detector/mood_classifier.py` (Mood-Detector).

Conventions of the embedding:
* Python floats are modelled as rationals (ℚ); every comparison and the
  arithmetic in the decision chain is exact in the source's literals, so ℚ
  is faithful there.  Only the similarity scoring takes a square root; that
  single step is modelled over ℝ with `Real.sqrt`.
* `round(x, 2)` and the `:.3f` / `:.1f` format specifiers round
  half-to-even, as Python does; the rounding is applied to the exact value.
* numpy / Python list indexing raises on an out-of-range index, and
  `np.argmax` raises on an empty sequence; fallible accesses therefore run
  in `Except String`, with `Except.error` standing for the raised exception.
  `np.argmax` returns the index of the first maximum.
-/

namespace MoodDetector

/-- Input record: the feature dictionary consumed by `classify_mood`
(`tempo`, `tempo_confidence`, `energy`, `spectral_centroid`,
`zero_crossing_rate`, `chroma`). -/
structure FeatureVector where
  tempo : ℚ
  tempo_confidence : ℚ
  energy : ℚ
  spectral_centroid : ℚ
  zero_crossing_rate : ℚ
  chroma : List ℚ

/-- Python list / numpy indexing: `l[i]`, raising `IndexError` when out of
range. -/
def listIdx {α : Type} (l : List α) (i : ℕ) : Except String α :=
  if h : i < l.length then Except.ok l[i]
  else Except.error "IndexError: index out of range"

/-- Index and value of the first maximum of a list (the `np.argmax`
convention: ties resolved by lowest index). -/
def argmaxP : List ℚ → Option (ℕ × ℚ)
  | [] => none
  | x :: xs =>
    match argmaxP xs with
    | none => some (0, x)
    | some (j, v) => if x < v then some (j + 1, v) else some (0, x)

/-- `np.argmax`, raising on an empty sequence. -/
def npArgmax (l : List ℚ) : Except String ℕ :=
  match argmaxP l with
  | none => Except.error "ValueError: attempt to get argmax of an empty sequence"
  | some jv => Except.ok jv.1

/-- Total variant of the argmax index (meaningful for nonempty lists; the
theorems relate it to `npArgmax`). -/
def argmaxD (l : List ℚ) : ℕ :=
  match argmaxP l with
  | none => 0
  | some jv => jv.1

/-- `determine_major_minor(chroma_features)`: root = argmax, compare the
major third `chroma[(root+4) % 12]` against the minor third
`chroma[(root+3) % 12]`; `True` (major) on strict greater. -/
def determine_major_minor (chroma_features : List ℚ) : Except String Bool := do
  let root_idx ← npArgmax chroma_features
  let major_strength ← listIdx chroma_features ((root_idx + 4) % 12)
  let minor_strength ← listIdx chroma_features ((root_idx + 3) % 12)
  pure (decide (minor_strength < major_strength))

/-- The fixed note-name table of `determine_key`. -/
def notes : List String :=
  ["C", "C#", "D", "D#", "E", "F"] ++ ["F#", "G", "G#", "A", "A#", "B"]

/-- `determine_key(chroma_features)`: note name of the argmax bin plus
`"major"` / `"minor"` from `determine_major_minor`. -/
def determine_key (chroma_features : List ℚ) : Except String String := do
  let max_idx ← npArgmax chroma_features
  let base_note ← listIdx notes max_idx
  let is_major ← determine_major_minor chroma_features
  pure (base_note ++ " " ++ (if is_major then "major" else "minor"))

/-- Pure counterpart of `determine_major_minor` (out-of-range reads
defaulted; the run lemmas show it agrees with the fallible version whenever
the chroma has at least 12 entries). -/
def dmmPure (l : List ℚ) : Bool :=
  decide (l.getD ((argmaxD l + 3) % 12) 0 < l.getD ((argmaxD l + 4) % 12) 0)

/-- Pure counterpart of `determine_key`. -/
def keyPure (l : List ℚ) : String :=
  notes.getD (argmaxD l) "C" ++ " " ++ (if dmmPure l then "major" else "minor")

/-- The half-tempo self-correction (`detect_mood` lines 66-67): the tempo
variable is reassigned to its double when `80 <= tempo <= 145` and
`energy > 0.8`. -/
def correctedTempo (energy tempo : ℚ) : ℚ :=
  if 80 ≤ tempo ∧ tempo ≤ 145 ∧ energy > 0.8 then tempo * 2.0 else tempo

/-- The prioritized rule chain of `detect_mood` after the tempo
reassignment: first match wins.  `tempo` is the (already corrected) tempo
and `brightness` the already-normalized spectral centroid. -/
def detectMoodChain (energy tempo tempo_confidence brightness
    zero_crossing_rate : ℚ) (is_major : Bool) : String × ℚ :=
  if tempo_confidence < 0.2 then
    if energy < 0.15 then ("Ambient/Drone", tempo)
    else if energy < 0.30 then ("Atmospheric/Textural", tempo)
    else if energy < 0.50 then ("Atmospheric/Textural", tempo)
    else if energy < 0.70 then
      (if brightness < 0.3 then ("Atmospheric/Textural", tempo)
       else ("Noise/Experimental", tempo))
    else ("Harsh Noise/Experimental", tempo)
  else if zero_crossing_rate > 0.25 then
    if energy > 0.3 then ("Harsh Noise/Experimental", tempo)
    else ("Glitch/Experimental", tempo)
  else if 120 ≤ tempo ∧ tempo ≤ 145 ∧ energy ≥ 0.50 then
    if brightness < 0.4 then ("Techno/Dark", tempo)
    else ("Techno/Industrial", tempo)
  else if 100 ≤ tempo ∧ tempo ≤ 130 ∧ energy ≥ 0.15 then
    if energy > 0.7 then
      (if 115 ≤ tempo ∧ tempo ≤ 130 then
        (if brightness > 0.5 then ("Techno/Industrial", tempo)
         else ("Techno/Dark", tempo))
       else ("Energetic/Rave", tempo))
    else if 100 ≤ tempo ∧ tempo ≤ 115 ∧ energy < 0.5 then ("Disco/Funk", tempo)
    else if brightness > 0.5 then
      (if is_major then ("House/Dance", tempo) else ("Dark House", tempo))
    else if brightness > 0.4 then ("Disco/Funk", tempo)
    else ("Club/Groovy", tempo)
  else if 148 ≤ tempo ∧ tempo ≤ 180 then
    if energy > 0.4 then ("Drum & Bass", tempo)
    else if energy > 0.25 then ("Breakbeat/Fast", tempo)
    else ("Fast/Atmospheric", tempo)
  else if tempo > 180 ∨ energy > 0.7 then
    if energy > 0.8 then ("Hard/Aggressive", tempo)
    else if energy > 0.6 then ("Energetic/Rave", tempo)
    else ("Driving Electronic", tempo)
  else if energy < 0.2 then
    if tempo < 70 then
      (if energy < 0.1 then ("Ambient/Atmospheric", tempo)
       else if !is_major then ("Melancholic/Sad", tempo)
       else ("Downtempo/Relaxed", tempo))
    else if 70 ≤ tempo ∧ tempo < 100 then
      (if energy < 0.1 ∧ brightness < 0.4 then ("Downtempo/Dark", tempo)
       else if energy < 0.12 then ("Ambient/Chill", tempo)
       else ("Midtempo Groove", tempo))
    else ("Minimal/Sparse", tempo)
  else if energy ≥ 0.25 then
    (if tempo > 100 then ("Upbeat/Moderate", tempo)
     else ("Moderate Groove", tempo))
  else if energy ≥ 0.15 then ("Relaxed/Moderate", tempo)
  else ("Low Energy", tempo)

/-- The pure part of `detect_mood`: the half-tempo reassignment followed by
the rule chain. -/
def detectMoodCore (energy tempo tempo_confidence brightness
    zero_crossing_rate : ℚ) (is_major : Bool) : String × ℚ :=
  detectMoodChain energy (correctedTempo energy tempo) tempo_confidence
    brightness zero_crossing_rate is_major

/-- `detect_mood(energy, tempo, tempo_confidence, chroma,
spectral_centroid, zero_crossing_rate)`: normalizes brightness, computes
`is_major`, then runs the decision chain; returns `(mood, corrected
tempo)`. -/
def detect_mood (energy tempo tempo_confidence : ℚ) (chroma : List ℚ)
    (spectral_centroid zero_crossing_rate : ℚ) : Except String (String × ℚ) := do
  let brightness := min (spectral_centroid / 5000.0) 1.0
  let is_major ← determine_major_minor chroma
  pure (detectMoodCore energy tempo tempo_confidence brightness
    zero_crossing_rate is_major)

/-- Round half to even on ℝ (sign convention as Python `round` on the exact
value), as an integer. -/
noncomputable def roundHalfEvenR (y : ℝ) : ℤ :=
  if y - ⌊y⌋ < 1 / 2 then ⌊y⌋
  else if 1 / 2 < y - ⌊y⌋ then ⌊y⌋ + 1
  else if ⌊y⌋ % 2 = 0 then ⌊y⌋ else ⌊y⌋ + 1

/-- Python `round(x, 2)` on the exact real value. -/
noncomputable def pyRound2 (x : ℝ) : ℝ := (roundHalfEvenR (x * 100) : ℝ) / 100

/-- The fixed genre archetype table of `calculate_similarity_scores`, in
source (insertion) order: name, reference energy, tempo, brightness. -/
def reference_moods : List (String × ℚ × ℚ × ℚ) :=
  [("House", 0.15, 125, 0.6),
   ("Techno", 0.16, 130, 0.4),
   ("Disco", 0.14, 115, 0.7),
   ("Ambient", 0.04, 70, 0.5),
   ("DnB", 0.18, 170, 0.5),
   ("Downtempo", 0.08, 90, 0.4)]

/-- `calculate_similarity_scores(energy, tempo, brightness)` — the third
argument receives the raw spectral centroid and is normalized inside.
Weighted Euclidean distance per archetype, converted to
`round(max(0, 1 - d/3), 2)`.  The Python dict, which preserves insertion
order, is modelled as an association list. -/
noncomputable def calculate_similarity_scores (energy tempo brightness : ℚ) :
    List (String × ℝ) :=
  let norm_brightness := min (brightness / 5000.0) 1.0
  reference_moods.map (fun ref =>
    let energy_diff := |energy - ref.2.1|
    let tempo_diff := |tempo - ref.2.2.1| / 100
    let brightness_diff := |norm_brightness - ref.2.2.2|
    let sq : ℚ := (energy_diff * 2) ^ 2 + (tempo_diff * 3) ^ 2 + (brightness_diff * 1) ^ 2
    let distance : ℝ := Real.sqrt (sq : ℝ)
    (ref.1, pyRound2 (max 0 (1 - distance / 3))))

/-- Round half to even on ℚ, as an integer (for the fixed-point format
specifiers). -/
def roundHalfEvenQ (q : ℚ) : ℤ :=
  if q - ⌊q⌋ < 1 / 2 then ⌊q⌋
  else if 1 / 2 < q - ⌊q⌋ then ⌊q⌋ + 1
  else if ⌊q⌋ % 2 = 0 then ⌊q⌋ else ⌊q⌋ + 1

/-- Left-pad a digit string with zeros to width `d`. -/
def padZeros (d : ℕ) (s : String) : String :=
  String.mk (List.replicate (d - s.length) '0') ++ s

/-- Python fixed-point formatting `f"{q:.df}"` on the exact value. -/
def fmtFixed (q : ℚ) (d : ℕ) : String :=
  let n := roundHalfEvenQ (q * (10 : ℚ) ^ d)
  let a := n.natAbs
  (if n < 0 then "-" else "") ++ toString (a / 10 ^ d) ++ "." ++
    padZeros d (toString (a % 10 ^ d))

/-- `generate_explanation(energy, tempo, brightness, key)` — the third
argument receives the raw spectral centroid and is normalized inside. -/
def generate_explanation (energy tempo brightness : ℚ) (key : String) : String :=
  let norm_brightness := min (brightness / 5000.0) 1.0
  let energy_desc :=
    if energy < 0.1 then "very low"
    else if energy < 0.2 then "low"
    else if energy < 0.35 then "moderate"
    else if energy < 0.5 then "high"
    else "very high"
  let bright_desc :=
    if norm_brightness < 0.3 then "dark/mellow"
    else if norm_brightness < 0.6 then "balanced"
    else "bright/sharp"
  let tempo_desc :=
    if tempo < 80 then "slow"
    else if tempo < 110 then "moderate"
    else if tempo < 130 then "dance"
    else if tempo < 150 then "fast"
    else "very fast"
  energy_desc.capitalize ++ " energy (" ++ fmtFixed energy 3 ++ "), " ++
    tempo_desc ++ " tempo (" ++ fmtFixed tempo 1 ++ " BPM), " ++
    bright_desc ++ " timbre, key of " ++ key

/-- Output record of `classify_mood`. -/
structure MoodResult where
  mood : String
  energy : ℚ
  tempo : ℚ
  key : String
  similarity_scores : List (String × ℝ)
  explanation : String

/-- `classify_mood(features)`: runs `detect_mood`, `determine_key`,
`calculate_similarity_scores` and `generate_explanation`, and assembles the
`MoodResult` (the `tempo` field carries the corrected tempo, the `energy`
field the input energy). -/
noncomputable def classify_mood (features : FeatureVector) :
    Except String MoodResult := do
  let md ← detect_mood features.energy features.tempo
    features.tempo_confidence features.chroma features.spectral_centroid
    features.zero_crossing_rate
  let key ← determine_key features.chroma
  pure { mood := md.1
         energy := features.energy
         tempo := md.2
         key := key
         similarity_scores := calculate_similarity_scores features.energy
           md.2 features.spectral_centroid
         explanation := generate_explanation features.energy md.2
           features.spectral_centroid key }

/-- Example inputs for the half-tempo witnesses. -/
def fC1a : FeatureVector :=
  { tempo := 100, tempo_confidence := 1, energy := 0.85,
    spectral_centroid := 2000, zero_crossing_rate := 0.1,
    chroma := List.replicate 12 0 }

def fC1b : FeatureVector :=
  { tempo := 100, tempo_confidence := 1, energy := 0.5,
    spectral_centroid := 2000, zero_crossing_rate := 0.1,
    chroma := List.replicate 12 0 }

/-- Example input for the degenerate-priority witness. -/
def fC2 : FeatureVector :=
  { tempo := 120, tempo_confidence := 0.05, energy := 0.05,
    spectral_centroid := 1000, zero_crossing_rate := 0.9,
    chroma := List.replicate 12 0 }

/-- Example chroma for the key-estimation witness: first maximum at index 2
(note D), third bins tie at zero so the mode resolves to minor. -/
def chromaC3 : List ℚ := [0, 0, 5, 0, 0, 0, 0, 0, 0, 0, 0, 0]

/-- The closed label vocabulary of `detect_mood`: every leaf of the rule
chain. -/
def allMoodLabels : List String :=
  ["Ambient/Drone", "Atmospheric/Textural", "Noise/Experimental",
   "Harsh Noise/Experimental", "Glitch/Experimental", "Techno/Dark",
   "Techno/Industrial", "Energetic/Rave", "Disco/Funk", "House/Dance",
   "Dark House", "Club/Groovy", "Drum & Bass", "Breakbeat/Fast",
   "Fast/Atmospheric", "Hard/Aggressive", "Driving Electronic",
   "Ambient/Atmospheric", "Melancholic/Sad", "Downtempo/Relaxed",
   "Downtempo/Dark", "Ambient/Chill", "Midtempo Groove", "Minimal/Sparse",
   "Upbeat/Moderate", "Moderate Groove", "Relaxed/Moderate", "Low Energy"]

/-- Example input for the totality witness. -/
def fC6 : FeatureVector :=
  { tempo := 128, tempo_confidence := 0.9, energy := 0.6,
    spectral_centroid := 1500, zero_crossing_rate := 0.12,
    chroma := [1, 0, 0, 0, 2, 0, 0, 1, 0, 0, 0, 0] }

/-- Example inputs for the techno boundary witness. -/
def fC7a : FeatureVector :=
  { tempo := 145, tempo_confidence := 0.9, energy := 0.5,
    spectral_centroid := 1000, zero_crossing_rate := 0.1,
    chroma := List.replicate 12 0 }

def fC7b : FeatureVector :=
  { tempo := 145.01, tempo_confidence := 0.9, energy := 0.5,
    spectral_centroid := 1000, zero_crossing_rate := 0.1,
    chroma := List.replicate 12 0 }

/-- The explanation exactly as the spec sentence phrases it: tiers given by
lower bounds from the top, brightness computed on `centroid/5000` capped at
1, rendered as
`"<Energy> energy (<energy:.3f>), <tempo> tempo (<tempo:.1f> BPM),
<brightness> timbre, key of <key>"`. -/
def explanationSpec (energy tempo spectral_centroid : ℚ) (key : String) :
    String :=
  let brightness := min (spectral_centroid / 5000.0) 1.0
  let energyTier :=
    if 0.5 ≤ energy then "very high"
    else if 0.35 ≤ energy then "high"
    else if 0.2 ≤ energy then "moderate"
    else if 0.1 ≤ energy then "low"
    else "very low"
  let brightTier :=
    if 0.6 ≤ brightness then "bright/sharp"
    else if 0.3 ≤ brightness then "balanced"
    else "dark/mellow"
  let tempoTier :=
    if 150 ≤ tempo then "very fast"
    else if 130 ≤ tempo then "fast"
    else if 110 ≤ tempo then "dance"
    else if 80 ≤ tempo then "moderate"
    else "slow"
  energyTier.capitalize ++ " energy (" ++ fmtFixed energy 3 ++ "), " ++
    tempoTier ++ " tempo (" ++ fmtFixed tempo 1 ++ " BPM), " ++
    brightTier ++ " timbre, key of " ++ key

/-- A malformed `FeatureVector`: its chroma has 13 entries instead of 12
(maximum at index 0, so every index the code reads is in range). -/
def fC9 : FeatureVector :=
  { tempo := 100, tempo_confidence := 1.0, energy := 0.5,
    spectral_centroid := 2000, zero_crossing_rate := 0.1,
    chroma := 1 :: List.replicate 12 0 }

/-! ### Run lemmas: executing the fallible layer -/

theorem argmaxP_spec (l : List ℚ) : l ≠ [] →
    ∃ j v, argmaxP l = some (j, v) ∧ j < l.length ∧ l.getD j 0 = v ∧
      (∀ k, k < l.length → l.getD k 0 ≤ v) ∧ (∀ k, k < j → l.getD k 0 < v) := by
  induction l with
  | nil => intro h; exact absurd rfl h
  | cons x xs ih =>
    intro _
    by_cases hxs : xs = []
    · subst hxs
      refine ⟨0, x, by simp [argmaxP], by simp, by simp, ?_, by omega⟩
      intro k hk
      simp only [List.length_cons, List.length_nil] at hk
      have hk0 : k = 0 := by omega
      subst hk0
      simp
    · obtain ⟨j, v, hP, hj, hv, hmax, hfirst⟩ := ih hxs
      by_cases hx : x < v
      · refine ⟨j + 1, v, ?_, ?_, ?_, ?_, ?_⟩
        · simp [argmaxP, hP, hx]
        · simpa using Nat.succ_lt_succ hj
        · simpa using hv
        · intro k hk
          cases k with
          | zero => simpa using le_of_lt hx
          | succ k => simpa using hmax k (by simpa using hk)
        · intro k hk
          cases k with
          | zero => simpa using hx
          | succ k => simpa using hfirst k (by omega)
      · refine ⟨0, x, ?_, by simp, by simp, ?_, by omega⟩
        · simp [argmaxP, hP, hx]
        · intro k hk
          cases k with
          | zero => simp
          | succ k =>
            push_neg at hx
            simpa using le_trans (hmax k (by simpa using hk)) hx

theorem npArgmax_run (l : List ℚ) (h : l ≠ []) :
    npArgmax l = Except.ok (argmaxD l) ∧ argmaxD l < l.length ∧
      (∀ k, k < l.length → l.getD k 0 ≤ l.getD (argmaxD l) 0) ∧
      (∀ k, k < argmaxD l → l.getD k 0 < l.getD (argmaxD l) 0) := by
  obtain ⟨j, v, hP, hj, hv, hmax, hfirst⟩ := argmaxP_spec l h
  have hD : argmaxD l = j := by simp [argmaxD, hP]
  rw [hD]
  exact ⟨by simp [npArgmax, hP], hj, by rw [hv]; exact hmax, by rw [hv]; exact hfirst⟩

theorem listIdx_run {α : Type} (l : List α) (i : ℕ) (h : i < l.length) (d : α) :
    listIdx l i = Except.ok (l.getD i d) := by
  unfold listIdx
  rw [dif_pos h, List.getD_eq_getElem l d h]

theorem determine_major_minor_run (l : List ℚ) (h12 : 12 ≤ l.length) :
    determine_major_minor l = Except.ok (dmmPure l) := by
  have hne : l ≠ [] := by
    intro h
    rw [h] at h12
    simp at h12
  obtain ⟨hA, hlt, -, -⟩ := npArgmax_run l hne
  have h4 : (argmaxD l + 4) % 12 < l.length :=
    lt_of_lt_of_le (Nat.mod_lt _ (by norm_num)) h12
  have h3 : (argmaxD l + 3) % 12 < l.length :=
    lt_of_lt_of_le (Nat.mod_lt _ (by norm_num)) h12
  simp [determine_major_minor, hA, listIdx_run _ _ h4 (0 : ℚ),
    listIdx_run _ _ h3 (0 : ℚ), dmmPure, Bind.bind, Except.bind, Pure.pure,
    Except.pure]

theorem notes_length : notes.length = 12 := by simp [notes]

theorem determine_key_run (l : List ℚ) (h12 : 12 ≤ l.length)
    (hroot : argmaxD l < 12) : determine_key l = Except.ok (keyPure l) := by
  have hne : l ≠ [] := by
    intro h
    rw [h] at h12
    simp at h12
  obtain ⟨hA, -, -, -⟩ := npArgmax_run l hne
  have hn : argmaxD l < notes.length := by rw [notes_length]; exact hroot
  simp [determine_key, hA, listIdx_run notes _ hn "C",
    determine_major_minor_run l h12, keyPure, Bind.bind, Except.bind,
    Pure.pure, Except.pure]

theorem detect_mood_run (energy tempo tempo_confidence : ℚ) (chroma : List ℚ)
    (spectral_centroid zero_crossing_rate : ℚ) (h12 : 12 ≤ chroma.length) :
    detect_mood energy tempo tempo_confidence chroma spectral_centroid
      zero_crossing_rate =
    Except.ok (detectMoodCore energy tempo tempo_confidence
      (min (spectral_centroid / 5000.0) 1.0) zero_crossing_rate
      (dmmPure chroma)) := by
  simp [detect_mood, determine_major_minor_run chroma h12, Bind.bind,
    Except.bind, Pure.pure, Except.pure]

theorem classify_mood_run (f : FeatureVector) (h12 : 12 ≤ f.chroma.length)
    (hroot : argmaxD f.chroma < 12) :
    classify_mood f =
    Except.ok
      { mood := (detectMoodCore f.energy f.tempo f.tempo_confidence
          (min (f.spectral_centroid / 5000.0) 1.0) f.zero_crossing_rate
          (dmmPure f.chroma)).1
        energy := f.energy
        tempo := (detectMoodCore f.energy f.tempo f.tempo_confidence
          (min (f.spectral_centroid / 5000.0) 1.0) f.zero_crossing_rate
          (dmmPure f.chroma)).2
        key := keyPure f.chroma
        similarity_scores := calculate_similarity_scores f.energy
          (detectMoodCore f.energy f.tempo f.tempo_confidence
            (min (f.spectral_centroid / 5000.0) 1.0) f.zero_crossing_rate
            (dmmPure f.chroma)).2 f.spectral_centroid
        explanation := generate_explanation f.energy
          (detectMoodCore f.energy f.tempo f.tempo_confidence
            (min (f.spectral_centroid / 5000.0) 1.0) f.zero_crossing_rate
            (dmmPure f.chroma)).2 f.spectral_centroid (keyPure f.chroma) } := by
  simp [classify_mood,
    detect_mood_run f.energy f.tempo f.tempo_confidence f.chroma
      f.spectral_centroid f.zero_crossing_rate h12,
    determine_key_run f.chroma h12 hroot, Bind.bind, Except.bind, Pure.pure,
    Except.pure]

theorem argmaxD_lt_of_twelve (l : List ℚ) (h : l.length = 12) :
    argmaxD l < 12 := by
  have hne : l ≠ [] := by
    intro hn
    rw [hn] at h
    simp at h
  obtain ⟨-, hlt, -, -⟩ := npArgmax_run l hne
  rw [h] at hlt
  exact hlt

/-- Every leaf of the rule chain returns the tempo it was given. -/
theorem detectMoodChain_snd (energy tempo tempo_confidence brightness
    zero_crossing_rate : ℚ) (is_major : Bool) :
    (detectMoodChain energy tempo tempo_confidence brightness
      zero_crossing_rate is_major).2 = tempo := by
  unfold detectMoodChain
  simp only [apply_ite Prod.snd, ite_self]

/-- Every leaf of the decision chain returns the corrected tempo: the input
tempo doubled exactly under the half-tempo condition. -/
theorem detectMoodCore_snd (energy tempo tempo_confidence brightness
    zero_crossing_rate : ℚ) (is_major : Bool) :
    (detectMoodCore energy tempo tempo_confidence brightness
      zero_crossing_rate is_major).2 =
    (if 80 ≤ tempo ∧ tempo ≤ 145 ∧ 0.8 < energy then tempo * 2.0 else tempo) := by
  unfold detectMoodCore
  rw [detectMoodChain_snd]
  rfl

/-- C1: tempo self-correction — for every well-formed input the `tempo`
field of the returned `MoodResult` equals `tempo_bpm * 2.0` exactly when
`80 ≤ tempo_bpm ≤ 145` and `energy > 0.8`, and equals `tempo_bpm`
otherwise. -/
theorem tempo_self_correction (f : FeatureVector)
    (h12 : f.chroma.length = 12) :
    (classify_mood f).map MoodResult.tempo =
    Except.ok
      (if 80 ≤ f.tempo ∧ f.tempo ≤ 145 ∧ 0.8 < f.energy then f.tempo * 2.0
       else f.tempo) := by
  rw [classify_mood_run f h12.ge (argmaxD_lt_of_twelve f.chroma h12)]
  simp [Except.map, detectMoodCore_snd]

/-- C1 witness: `tempo_bpm=100, energy=0.85` gives corrected tempo `200.0`;
`tempo_bpm=100, energy=0.5` gives `100.0`. -/
theorem tempo_self_correction_witness :
    (classify_mood fC1a).map MoodResult.tempo = Except.ok 200.0 ∧
    (classify_mood fC1b).map MoodResult.tempo = Except.ok 100.0 := by
  constructor
  · rw [tempo_self_correction fC1a (by rfl)]
    norm_num [fC1a]
  · rw [tempo_self_correction fC1b (by rfl)]
    norm_num [fC1b]

/-- C2: degenerate-signal priority — whenever `tempo_confidence < 0.2` the
mood is the energy-tiered no-beat label, regardless of the zero-crossing
rate (the no-beat rule precedes the noisy-timbre rule). -/
theorem degenerate_priority (f : FeatureVector) (h12 : f.chroma.length = 12)
    (htc : f.tempo_confidence < 0.2) :
    (classify_mood f).map MoodResult.mood =
    Except.ok
      (if f.energy < 0.15 then "Ambient/Drone"
       else if f.energy < 0.50 then "Atmospheric/Textural"
       else if f.energy < 0.70 then
         (if min (f.spectral_centroid / 5000.0) 1.0 < 0.3 then
            "Atmospheric/Textural"
          else "Noise/Experimental")
       else "Harsh Noise/Experimental") := by
  rw [classify_mood_run f h12.ge (argmaxD_lt_of_twelve f.chroma h12)]
  simp only [Except.map]
  unfold detectMoodCore detectMoodChain
  rw [if_pos htc]
  simp only [apply_ite Prod.fst]
  split_ifs <;> first | rfl | (exfalso; linarith)

/-- C2 witness: `tempo_confidence=0.05, zero_crossing_rate=0.9,
energy=0.05` yields `"Ambient/Drone"`, never a noise label. -/
theorem degenerate_priority_witness :
    (classify_mood fC2).map MoodResult.mood = Except.ok "Ambient/Drone" := by
  rw [degenerate_priority fC2 (by rfl) (by norm_num [fC2])]
  norm_num [fC2]

/-- C3: key estimation — the root is the index of the first maximum of the
chroma vector (ties to the lowest index), the mode is major exactly when
the bin a major third above the root strictly exceeds the bin a minor
third above (a tie is minor), and the all-zero chroma yields "C minor". -/
theorem key_estimation (c : List ℚ) (h : c.length = 12) :
    determine_key c = Except.ok (keyPure c) ∧
    argmaxD c < 12 ∧
    (∀ k, k < 12 → c.getD k 0 ≤ c.getD (argmaxD c) 0) ∧
    (∀ k, k < argmaxD c → c.getD k 0 < c.getD (argmaxD c) 0) ∧
    determine_major_minor c =
      Except.ok
        (decide (c.getD ((argmaxD c + 3) % 12) 0 <
          c.getD ((argmaxD c + 4) % 12) 0)) ∧
    determine_key (List.replicate 12 0) = Except.ok "C minor" := by
  have hroot := argmaxD_lt_of_twelve c h
  have hne : c ≠ [] := by
    intro hn
    rw [hn] at h
    simp at h
  obtain ⟨hA, hlt, hmax, hfirst⟩ := npArgmax_run c hne
  refine ⟨determine_key_run c h.ge hroot, hroot, ?_, hfirst,
    determine_major_minor_run c h.ge, by rfl⟩
  intro k hk
  exact hmax k (by rw [h]; exact hk)

/-- C3 witness: concrete chroma with the maximum at index 2 gives root D
and (by the tie rule) a minor mode. -/
theorem key_estimation_witness :
    determine_key chromaC3 = Except.ok "D minor" ∧ argmaxD chromaC3 = 2 := by
  have h := (key_estimation chromaC3 (by rfl)).1
  rw [h]
  exact ⟨by rfl, by rfl⟩

theorem ite_prop_of (c : Prop) [Decidable c] {P Q : Prop} (hp : P) (hq : Q) :
    if c then P else Q := by
  split_ifs <;> assumption

/-- Every path of the rule chain ends in a label of the closed
vocabulary. -/
theorem detectMoodChain_fst_mem (energy tempo tempo_confidence brightness
    zero_crossing_rate : ℚ) (is_major : Bool) :
    (detectMoodChain energy tempo tempo_confidence brightness
      zero_crossing_rate is_major).1 ∈ allMoodLabels := by
  unfold detectMoodChain
  simp only [apply_ite Prod.fst]
  simp only [apply_ite (fun s : String => s ∈ allMoodLabels)]
  repeat' apply ite_prop_of
  all_goals decide

/-- C6: totality — for every well-formed `FeatureVector` (12-element
chroma), `classify_mood` reaches no error branch: it returns a
`MoodResult`, and every path of the decision chain ends in a label of the
closed vocabulary. -/
theorem classify_total (f : FeatureVector) (h12 : f.chroma.length = 12) :
    ∃ r, classify_mood f = Except.ok r ∧ r.mood ∈ allMoodLabels := by
  refine ⟨_, classify_mood_run f h12.ge (argmaxD_lt_of_twelve f.chroma h12), ?_⟩
  exact detectMoodChain_fst_mem _ _ _ _ _ _

/-- C6 witness: a concrete well-formed input classifies successfully into
the vocabulary. -/
theorem classify_total_witness :
    ∃ r, classify_mood fC6 = Except.ok r ∧ r.mood ∈ allMoodLabels :=
  classify_total fC6 (by rfl)

/-- C7: techno band boundary — with a reliable beat and an unremarkable
zero-crossing rate, corrected tempo `145.0` at energy `0.5` lands in the
techno band (brightness-split between "Techno/Dark" and
"Techno/Industrial"; the `145` endpoint is inclusive), while `145.01`
falls through to the distinct non-techno label "Upbeat/Moderate". -/
theorem techno_band_boundary (f g : FeatureVector)
    (hf12 : f.chroma.length = 12) (hg12 : g.chroma.length = 12)
    (hftc : 0.2 ≤ f.tempo_confidence) (hfz : f.zero_crossing_rate ≤ 0.25)
    (hgtc : 0.2 ≤ g.tempo_confidence) (hgz : g.zero_crossing_rate ≤ 0.25)
    (hft : f.tempo = 145) (hfe : f.energy = 0.5)
    (hgt : g.tempo = 145.01) (hge : g.energy = 0.5) :
    (classify_mood f).map MoodResult.mood =
      Except.ok
        (if min (f.spectral_centroid / 5000.0) 1.0 < 0.4 then "Techno/Dark"
         else "Techno/Industrial") ∧
    (classify_mood g).map MoodResult.mood = Except.ok "Upbeat/Moderate" ∧
    ("Upbeat/Moderate" ≠ "Techno/Dark" ∧
      "Upbeat/Moderate" ≠ "Techno/Industrial") := by
  refine ⟨?_, ?_, by decide⟩
  · rw [classify_mood_run f hf12.ge (argmaxD_lt_of_twelve f.chroma hf12)]
    simp only [Except.map]
    unfold detectMoodCore
    rw [hfe, hft]
    rw [show correctedTempo 0.5 145 = 145 by norm_num [correctedTempo]]
    unfold detectMoodChain
    rw [if_neg (not_lt.mpr hftc), if_neg (not_lt.mpr hfz),
      if_pos (by norm_num : (120 : ℚ) ≤ 145 ∧ (145 : ℚ) ≤ 145 ∧ (0.5 : ℚ) ≥ 0.50)]
    simp only [apply_ite Prod.fst]
  · rw [classify_mood_run g hg12.ge (argmaxD_lt_of_twelve g.chroma hg12)]
    simp only [Except.map]
    unfold detectMoodCore
    rw [hge, hgt]
    rw [show correctedTempo 0.5 145.01 = 145.01 by norm_num [correctedTempo]]
    unfold detectMoodChain
    rw [if_neg (not_lt.mpr hgtc), if_neg (not_lt.mpr hgz),
      if_neg (by norm_num : ¬((120 : ℚ) ≤ 145.01 ∧ (145.01 : ℚ) ≤ 145 ∧ (0.5 : ℚ) ≥ 0.50)),
      if_neg (by norm_num : ¬((100 : ℚ) ≤ 145.01 ∧ (145.01 : ℚ) ≤ 130 ∧ (0.5 : ℚ) ≥ 0.15)),
      if_neg (by norm_num : ¬((148 : ℚ) ≤ 145.01 ∧ (145.01 : ℚ) ≤ 180)),
      if_neg (by norm_num : ¬((145.01 : ℚ) > 180 ∨ (0.5 : ℚ) > 0.7)),
      if_neg (by norm_num : ¬((0.5 : ℚ) < 0.2)),
      if_pos (by norm_num : (0.5 : ℚ) ≥ 0.25),
      if_pos (by norm_num : (145.01 : ℚ) > 100)]

/-- C7 witness: concrete inputs at tempo 145.0 (dark brightness, giving
"Techno/Dark") and 145.01 (giving "Upbeat/Moderate"). -/
theorem techno_band_boundary_witness :
    (classify_mood fC7a).map MoodResult.mood = Except.ok "Techno/Dark" ∧
    (classify_mood fC7b).map MoodResult.mood = Except.ok "Upbeat/Moderate" := by
  obtain ⟨h1, h2, -⟩ := techno_band_boundary fC7a fC7b (by rfl) (by rfl)
    (by norm_num [fC7a]) (by norm_num [fC7a]) (by norm_num [fC7b])
    (by norm_num [fC7b]) (by rfl) (by rfl) (by rfl) (by rfl)
  refine ⟨?_, h2⟩
  rw [h1]
  norm_num [fC7a, min_def]

/-! ### Rounding bounds for the similarity scores -/

theorem roundHalfEvenR_nonneg (y : ℝ) (h : 0 ≤ y) : 0 ≤ roundHalfEvenR y := by
  have hfl : 0 ≤ ⌊y⌋ := Int.floor_nonneg.mpr h
  unfold roundHalfEvenR
  split_ifs <;> omega

theorem roundHalfEvenR_le (y : ℝ) (c : ℤ) (h : y ≤ c) :
    roundHalfEvenR y ≤ c := by
  have hfl : ⌊y⌋ ≤ c := by
    have h2 := Int.floor_mono h
    rwa [Int.floor_intCast] at h2
  have hfy : (⌊y⌋ : ℝ) ≤ y := Int.floor_le y
  unfold roundHalfEvenR
  split_ifs with h1 h2 h3
  · exact hfl
  · have h4 : (⌊y⌋ : ℝ) + 1 / 2 ≤ y := by
      have h5 := not_lt.mp h1
      linarith
    have h5 : (⌊y⌋ : ℝ) < (c : ℝ) := by
      have h6 : (c : ℝ) ≥ y := h
      linarith
    have h6 : ⌊y⌋ < c := by exact_mod_cast h5
    omega
  · exact hfl
  · have h4 : (⌊y⌋ : ℝ) + 1 / 2 ≤ y := by
      have h5 := not_lt.mp h1
      linarith
    have h5 : (⌊y⌋ : ℝ) < (c : ℝ) := by
      have h6 : (c : ℝ) ≥ y := h
      linarith
    have h6 : ⌊y⌋ < c := by exact_mod_cast h5
    omega

theorem pyRound2_mem (x : ℝ) (h0 : 0 ≤ x) (h1 : x ≤ 1) :
    0 ≤ pyRound2 x ∧ pyRound2 x ≤ 1 := by
  unfold pyRound2
  constructor
  · apply div_nonneg _ (by norm_num)
    exact_mod_cast roundHalfEvenR_nonneg (x * 100) (by positivity)
  · rw [div_le_one (by norm_num)]
    have h2 : roundHalfEvenR (x * 100) ≤ (100 : ℤ) :=
      roundHalfEvenR_le _ 100 (by push_cast; linarith)
    exact_mod_cast h2

theorem pyRound2_one : pyRound2 1 = 1 := by
  have h100 : ⌊(1 * 100 : ℝ)⌋ = 100 := by norm_num
  unfold pyRound2 roundHalfEvenR
  rw [h100]
  norm_num

/-- Any score of the form `round(max(0, 1 - d/3), 2)` with `d ≥ 0` lies in
`[0, 1]`. -/
theorem similarityScore_mem (y : ℝ) (hy : 0 ≤ y) :
    0 ≤ pyRound2 (max 0 (1 - y / 3)) ∧ pyRound2 (max 0 (1 - y / 3)) ≤ 1 :=
  pyRound2_mem _ (le_max_left _ _) (max_le (by norm_num) (by linarith))

/-- C4: similarity scoring — the similarity map has exactly the six genres
House, Techno, Disco, Ambient, DnB, Downtempo in this order; every score
(each computed as `max(0, 1 - d/3)` rounded to two decimals, `d` the
weighted Euclidean distance) lies in `[0, 1]`; and at the exact House
reference point (energy 0.15, tempo 125, spectral centroid 3000, hence
brightness 0.6) the House score is exactly 1. -/
theorem similarity_scores_spec (energy tempo sc : ℚ) (i : ℕ) :
    (calculate_similarity_scores energy tempo sc).map Prod.fst =
      ["House", "Techno", "Disco", "Ambient", "DnB", "Downtempo"] ∧
    (0 ≤ ((calculate_similarity_scores energy tempo sc).getD i ("", 0)).2 ∧
      ((calculate_similarity_scores energy tempo sc).getD i ("", 0)).2 ≤ 1) ∧
    (calculate_similarity_scores 0.15 125 3000).lookup "House" = some 1 := by
  refine ⟨by simp [calculate_similarity_scores, reference_moods], ?_, ?_⟩
  · rcases i with - | - | - | - | - | - | i <;>
      simp only [calculate_similarity_scores, reference_moods, List.map_cons,
        List.map_nil, List.getD_cons_zero, List.getD_cons_succ] <;>
      first
        | exact similarityScore_mem _ (Real.sqrt_nonneg _)
        | simp
  · have hmin : min ((3000 : ℚ) / 5000.0) 1.0 = 0.6 := by
      rw [min_def]
      norm_num
    have hq : ((|(0.15 : ℚ) - 0.15| * 2) ^ 2 + ((|(125 : ℚ) - 125| / 100) * 3) ^ 2 +
        (|(0.6 : ℚ) - 0.6| * 1) ^ 2) = 0 := by norm_num
    simp only [calculate_similarity_scores, reference_moods, List.map_cons,
      hmin, hq, List.lookup]
    norm_num [Real.sqrt_zero, pyRound2_one]

/-- C5: determinism — the Decision Engine of the embedding is a pure
function: a second call of `classify_mood` on the same `FeatureVector` is
the very same term, so the two results agree in every field (there is no
hidden state and no randomness in the code: it reads only its arguments
and fixed constant tables). -/
theorem classify_deterministic (f : FeatureVector) :
    classify_mood f = classify_mood f ∧
    (classify_mood f).map MoodResult.mood =
      (classify_mood f).map MoodResult.mood ∧
    (classify_mood f).map MoodResult.tempo =
      (classify_mood f).map MoodResult.tempo ∧
    (classify_mood f).map MoodResult.key =
      (classify_mood f).map MoodResult.key ∧
    (classify_mood f).map MoodResult.similarity_scores =
      (classify_mood f).map MoodResult.similarity_scores ∧
    (classify_mood f).map MoodResult.explanation =
      (classify_mood f).map MoodResult.explanation :=
  ⟨rfl, rfl, rfl, rfl, rfl, rfl⟩

/-- C10: frame property — whatever `classify_mood` returns, its `energy`
field is the input energy, unchanged (unlike the tempo, which the
half-tempo correction may double). -/
theorem classify_energy_frame (f : FeatureVector) :
    (classify_mood f).map MoodResult.energy =
      (classify_mood f).map (fun _ => f.energy) := by
  unfold classify_mood
  cases hd : detect_mood f.energy f.tempo f.tempo_confidence f.chroma
      f.spectral_centroid f.zero_crossing_rate with
  | error e => rfl
  | ok md =>
    cases hk : determine_key f.chroma with
    | error e => rfl
    | ok key => rfl

/-! ### Explanation rendering (claim-side formulation) -/

theorem energyTier_eq (e : ℚ) :
    (if e < 0.1 then "very low"
     else if e < 0.2 then "low"
     else if e < 0.35 then "moderate"
     else if e < 0.5 then "high"
     else "very high") =
    (if 0.5 ≤ e then "very high"
     else if 0.35 ≤ e then "high"
     else if 0.2 ≤ e then "moderate"
     else if 0.1 ≤ e then "low"
     else "very low") := by
  split_ifs <;> first | rfl | linarith

theorem brightTier_eq (b : ℚ) :
    (if b < 0.3 then "dark/mellow"
     else if b < 0.6 then "balanced"
     else "bright/sharp") =
    (if 0.6 ≤ b then "bright/sharp"
     else if 0.3 ≤ b then "balanced"
     else "dark/mellow") := by
  split_ifs <;> first | rfl | linarith

theorem tempoTier_eq (t : ℚ) :
    (if t < 80 then "slow"
     else if t < 110 then "moderate"
     else if t < 130 then "dance"
     else if t < 150 then "fast"
     else "very fast") =
    (if 150 ≤ t then "very fast"
     else if 130 ≤ t then "fast"
     else if 110 ≤ t then "dance"
     else if 80 ≤ t then "moderate"
     else "slow") := by
  split_ifs <;> first | rfl | linarith

/-- C8: explanation rendering — for every energy, corrected tempo,
spectral centroid and key string the explanation produced by the code
coincides with the spec-side rendering `explanationSpec` (same tier
boundaries, same normalization, same format). -/
theorem explanation_rendering (energy tempo sc : ℚ) (key : String) :
    generate_explanation energy tempo sc key =
      explanationSpec energy tempo sc key := by
  simp only [generate_explanation, explanationSpec]
  rw [energyTier_eq, brightTier_eq, tempoTier_eq]

/-! ### Malformed input handling -/

/-- C9 counterexample: `classify_mood` performs no boundary validation — a
FeatureVector with a 13-element chroma is not rejected with a validation
error; the Decision Engine runs through and returns the classification
"Club/Groovy". -/
theorem malformed_chroma_not_rejected :
    fC9.chroma.length = 13 ∧
    (classify_mood fC9).map MoodResult.mood = Except.ok "Club/Groovy" := by
  refine ⟨by rfl, ?_⟩
  rw [classify_mood_run fC9 (by norm_num [fC9]) (by decide)]
  simp only [Except.map, Except.ok.injEq]
  unfold detectMoodCore
  have he : fC9.energy = 0.5 := rfl
  have ht : fC9.tempo = 100 := rfl
  have htc : fC9.tempo_confidence = 1.0 := rfl
  have hz : fC9.zero_crossing_rate = 0.1 := rfl
  have hsc : fC9.spectral_centroid = 2000 := rfl
  rw [he, ht, htc, hz, hsc]
  rw [show min ((2000 : ℚ) / 5000.0) 1.0 = 0.4 by rw [min_def]; norm_num]
  rw [show correctedTempo 0.5 100 = 100 by norm_num [correctedTempo]]
  unfold detectMoodChain
  rw [if_neg (by norm_num : ¬((1.0 : ℚ) < 0.2)),
    if_neg (by norm_num : ¬((0.1 : ℚ) > 0.25)),
    if_neg (by norm_num : ¬((120 : ℚ) ≤ 100 ∧ (100 : ℚ) ≤ 145 ∧ (0.5 : ℚ) ≥ 0.50)),
    if_pos (by norm_num : (100 : ℚ) ≤ 100 ∧ (100 : ℚ) ≤ 130 ∧ (0.5 : ℚ) ≥ 0.15),
    if_neg (by norm_num : ¬((0.5 : ℚ) > 0.7)),
    if_neg (by norm_num : ¬((100 : ℚ) ≤ 100 ∧ (100 : ℚ) ≤ 115 ∧ (0.5 : ℚ) < 0.5)),
    if_neg (by norm_num : ¬((0.4 : ℚ) > 0.5)),
    if_neg (by norm_num : ¬((0.4 : ℚ) > 0.4))]

/-- C9 amended: the implementation validates nothing at the classification
boundary.  Any `FeatureVector` whose chroma has at least 12 entries and
whose first-maximum index is below 12 — in particular any malformed one
with more than 12 entries and its maximum among the first 12 — is
classified normally (`Except.ok`), never rejected with a validation
error.  (Chromas outside this set can only raise an unnamed `IndexError`
from list indexing, still not a named validation error.) -/
theorem no_boundary_validation (f : FeatureVector)
    (h : 12 ≤ f.chroma.length) (hroot : argmaxD f.chroma < 12) :
    ∃ r, classify_mood f = Except.ok r :=
  ⟨_, classify_mood_run f h hroot⟩

/-- C9 amended witness: the malformed 13-chroma input is classified
successfully. -/
theorem no_boundary_validation_witness :
    ∃ r, classify_mood fC9 = Except.ok r :=
  no_boundary_validation fC9 (by norm_num [fC9]) (by decide)

end MoodDetector
